import Mathlib

/-!
Shallow embedding of the swap-math and transaction-orchestration core of a
Solana copy-trading bot (source files `src/dex/pump.rs` and `src/core/tx.rs`).

Machine integers (`u64`, `u32`) are modelled as `Nat` together with explicit
checked-arithmetic operations that return `none` on overflow, exactly as the
Rust `checked_mul` / `checked_add` / `checked_div` methods do on `u64`.
Fallible Rust functions returning `Result<T, E>` are modelled as `Except E T`
(errors carry the same message strings as the source); `Option` stays `Option`.
-/

namespace PumpBot

/-- Maximum value of a Rust `u64`. -/
def U64_MAX : Nat := 2 ^ 64 - 1

/-- Rust `u64::checked_mul`: `some (a * b)` unless the product exceeds `u64`. -/
def checked_mul (a b : Nat) : Option Nat :=
  if a * b ≤ U64_MAX then some (a * b) else none

/-- Rust `u64::checked_add`: `some (a + b)` unless the sum exceeds `u64`. -/
def checked_add (a b : Nat) : Option Nat :=
  if a + b ≤ U64_MAX then some (a + b) else none

/-- Rust `u64::checked_div`: floor division, `none` on division by zero. -/
def checked_div (a b : Nat) : Option Nat :=
  if b = 0 then none else some (a / b)

/-- `pub const TEN_THOUSAND: u64 = 10000;` (src/dex/pump.rs line 29). -/
def TEN_THOUSAND : Nat := 10000

/-- `pub const MAX_SLIPPAGE_BPS: u64 = 5000;` (src/dex/pump.rs line 42). -/
def MAX_SLIPPAGE_BPS : Nat := 5000

/-- Embedding of `min_amount_with_slippage` (src/dex/pump.rs lines 277-291):
rejects `slippage_bps >= 10000`, otherwise computes
`input_amount.checked_mul(10000 - slippage_bps).and_then(checked_div 10000)`,
surfacing overflow as an error. -/
def min_amount_with_slippage (input_amount slippage_bps : Nat) : Except String Nat :=
  if slippage_bps ≥ TEN_THOUSAND then
    Except.error "Slippage cannot be 100% or greater"
  else
    let keep_percentage := TEN_THOUSAND - slippage_bps
    match (checked_mul input_amount keep_percentage).bind
        (fun result => checked_div result TEN_THOUSAND) with
    | some v => Except.ok v
    | none => Except.error "Arithmetic overflow in slippage calculation"

/-- Embedding of `max_amount_with_slippage` (src/dex/pump.rs lines 292-308):
rejects `slippage_bps > 10000`, otherwise computes
`10000.checked_add(slippage_bps)` then
`input_amount.checked_mul(multiplier).and_then(checked_div 10000)`. -/
def max_amount_with_slippage (input_amount slippage_bps : Nat) : Except String Nat :=
  if slippage_bps > TEN_THOUSAND then
    Except.error "Slippage exceeds 100%, which may indicate an error"
  else
    match checked_add TEN_THOUSAND slippage_bps with
    | none => Except.error "Overflow when adding slippage to base percentage"
    | some multiplier_percentage =>
      match (checked_mul input_amount multiplier_percentage).bind
          (fun result => checked_div result TEN_THOUSAND) with
      | some v => Except.ok v
      | none => Except.error "Arithmetic overflow in slippage calculation"

end PumpBot

namespace PumpBot

/-- Claim C1: for every `amount` and `slippage_bps < 10000` with
`amount * (10000 - slippage_bps)` fitting in `u64`,
`min_amount_with_slippage` returns `⌊amount * (10000 - slippage_bps) / 10000⌋`;
it errors whenever `slippage_bps ≥ 10000` or the multiplication overflows;
in particular `min_amount_with_slippage 1000000 100 = 990000`. -/
theorem min_amount_with_slippage_spec (amount slippage_bps : Nat) :
    (slippage_bps < 10000 → amount * (10000 - slippage_bps) ≤ U64_MAX →
      min_amount_with_slippage amount slippage_bps =
        Except.ok (amount * (10000 - slippage_bps) / 10000)) ∧
    (slippage_bps ≥ 10000 →
      min_amount_with_slippage amount slippage_bps =
        Except.error "Slippage cannot be 100% or greater") ∧
    (slippage_bps < 10000 → U64_MAX < amount * (10000 - slippage_bps) →
      min_amount_with_slippage amount slippage_bps =
        Except.error "Arithmetic overflow in slippage calculation") ∧
    min_amount_with_slippage 1000000 100 = Except.ok 990000 := by
  refine ⟨?_, ?_, ?_, by rfl⟩
  · intro hlt hfit
    simp only [min_amount_with_slippage, TEN_THOUSAND]
    rw [if_neg (by omega)]
    rw [show checked_mul amount (10000 - slippage_bps) =
          some (amount * (10000 - slippage_bps)) from if_pos hfit]
    simp [checked_div]
  · intro hge
    simp only [min_amount_with_slippage, TEN_THOUSAND]
    rw [if_pos (by omega)]
  · intro hlt hover
    simp only [min_amount_with_slippage, TEN_THOUSAND]
    rw [if_neg (by omega)]
    rw [show checked_mul amount (10000 - slippage_bps) = none from if_neg (by omega)]
    rfl

/-- Witness for C1: concrete instantiation of the proved specification. -/
theorem min_amount_with_slippage_spec_witness :
    min_amount_with_slippage 1000000 100 = Except.ok (1000000 * (10000 - 100) / 10000) :=
  (min_amount_with_slippage_spec 1000000 100).1 (by decide) (by decide)

/-- Claim C2: for every `amount` and `slippage_bps ≤ 10000` with
`amount * (10000 + slippage_bps)` fitting in `u64`,
`max_amount_with_slippage` returns `⌊amount * (10000 + slippage_bps) / 10000⌋`;
it errors whenever `slippage_bps > 10000` or the multiplication overflows;
in particular it fails at `slippage_bps = 10001` for every amount, and
`max_amount_with_slippage 1000000 100 = 1010000`. -/
theorem max_amount_with_slippage_spec (amount slippage_bps : Nat) :
    (slippage_bps ≤ 10000 → amount * (10000 + slippage_bps) ≤ U64_MAX →
      max_amount_with_slippage amount slippage_bps =
        Except.ok (amount * (10000 + slippage_bps) / 10000)) ∧
    (slippage_bps > 10000 →
      max_amount_with_slippage amount slippage_bps =
        Except.error "Slippage exceeds 100%, which may indicate an error") ∧
    (slippage_bps ≤ 10000 → U64_MAX < amount * (10000 + slippage_bps) →
      max_amount_with_slippage amount slippage_bps =
        Except.error "Arithmetic overflow in slippage calculation") ∧
    max_amount_with_slippage amount 10001 =
      Except.error "Slippage exceeds 100%, which may indicate an error" ∧
    max_amount_with_slippage 1000000 100 = Except.ok 1010000 := by
  refine ⟨?_, ?_, ?_, ?_, by rfl⟩
  · intro hle hfit
    simp only [max_amount_with_slippage, TEN_THOUSAND]
    rw [if_neg (by omega)]
    rw [show checked_add 10000 slippage_bps = some (10000 + slippage_bps) from if_pos (by
      simp only [U64_MAX]; omega)]
    simp only []
    rw [show checked_mul amount (10000 + slippage_bps) =
          some (amount * (10000 + slippage_bps)) from if_pos hfit]
    simp [checked_div]
  · intro hgt
    simp only [max_amount_with_slippage, TEN_THOUSAND]
    rw [if_pos hgt]
  · intro hle hover
    simp only [max_amount_with_slippage, TEN_THOUSAND]
    rw [if_neg (by omega)]
    rw [show checked_add 10000 slippage_bps = some (10000 + slippage_bps) from if_pos (by
      simp only [U64_MAX]; omega)]
    simp only []
    rw [show checked_mul amount (10000 + slippage_bps) = none from if_neg (by omega)]
    rfl
  · simp only [max_amount_with_slippage, TEN_THOUSAND]
    rw [if_pos (by omega)]

/-- Witness for C2: concrete instantiation of the proved specification. -/
theorem max_amount_with_slippage_spec_witness :
    max_amount_with_slippage 1000000 100 = Except.ok (1000000 * (10000 + 100) / 10000) :=
  (max_amount_with_slippage_spec 1000000 100).1 (by decide) (by decide)

/-- `TxConfig` (src/core/tx.rs lines 33-39); `unit_price : u64`, `unit_limit : u32`,
`max_retries : u32` are modelled as `Nat`. -/
structure TxConfig where
  unit_price : Nat
  unit_limit : Nat
  max_retries : Nat
  use_jito : Bool
deriving DecidableEq

/-- Solana `Instruction` values, abstracted to the shapes this code constructs:
the two `ComputeBudgetInstruction` constructors (tx.rs lines 79 and 84), the
`system_instruction::transfer` tip instruction (tx.rs lines 114-118), and an
opaque constructor for every other instruction a caller may supply. -/
inductive Instruction where
  | computeUnitLimit (units : Nat)
  | computeUnitPrice (microLamports : Nat)
  | systemTransfer (source dest lamports : Nat)
  | other (tag : Nat)
deriving DecidableEq

/-- Embedding of `add_compute_budget_instructions` (src/core/tx.rs lines 74-89):
`instructions.insert(0, compute_limit_ix)`, then, when `config.unit_price > 0`,
`instructions.insert(1, compute_price_ix)`.  `Vec::insert` at index 1 on the
(always nonempty) list `head :: tail` yields `head :: new :: tail`. -/
def add_compute_budget_instructions (instructions : List Instruction) (config : TxConfig) :
    List Instruction :=
  let after_limit := Instruction.computeUnitLimit config.unit_limit :: instructions
  if config.unit_price > 0 then
    match after_limit with
    | [] => [Instruction.computeUnitPrice config.unit_price]
    | head :: tail => head :: Instruction.computeUnitPrice config.unit_price :: tail
  else
    after_limit

/-- Claim C6 counterexample: the claimed "a compute-unit-price instruction is at
index 1 if and only if `config.unit_price > 0`" fails when `unit_price = 0` and
the caller-supplied list itself begins with a compute-unit-price instruction:
that original instruction then sits at index 1 of the result. -/
theorem add_compute_budget_instructions_iff_counterexample :
    ¬ ((∃ p, (add_compute_budget_instructions [Instruction.computeUnitPrice 7]
          ⟨0, 300000, 3, true⟩)[1]? = some (Instruction.computeUnitPrice p)) ↔
        (TxConfig.mk 0 300000 3 true).unit_price > 0) := by
  intro h
  exact absurd (h.mp ⟨7, rfl⟩) (by decide)

/-- Claim C6 (amended): `add_compute_budget_instructions` returns the
compute-unit-limit instruction at index 0, followed by the inserted
compute-unit-price instruction exactly when `unit_price > 0`, followed by all
originally supplied instructions unchanged and in order; when `unit_price > 0`
the inserted price instruction is at index 1.  (The original "iff" direction
fails only when `unit_price = 0` and the caller's own first instruction happens
to be a compute-unit-price instruction, as the counterexample shows.) -/
theorem add_compute_budget_instructions_spec (instructions : List Instruction)
    (config : TxConfig) :
    add_compute_budget_instructions instructions config =
      Instruction.computeUnitLimit config.unit_limit ::
        ((if config.unit_price > 0 then [Instruction.computeUnitPrice config.unit_price]
          else []) ++ instructions) ∧
    (add_compute_budget_instructions instructions config)[0]? =
      some (Instruction.computeUnitLimit config.unit_limit) ∧
    (config.unit_price > 0 →
      (add_compute_budget_instructions instructions config)[1]? =
        some (Instruction.computeUnitPrice config.unit_price)) := by
  by_cases hp : config.unit_price > 0
  · refine ⟨?_, ?_, fun _ => ?_⟩ <;> simp [add_compute_budget_instructions, hp]
  · refine ⟨?_, ?_, fun hc => absurd hc hp⟩ <;>
      simp [add_compute_budget_instructions, hp]

/-- Witness for C6 (amended): concrete instantiation with `unit_price = 5`. -/
theorem add_compute_budget_instructions_spec_witness :
    (TxConfig.mk 5 200000 3 true).unit_price > 0 ∧
    (add_compute_budget_instructions [Instruction.other 0] ⟨5, 200000, 3, true⟩)[1]? =
      some (Instruction.computeUnitPrice 5) :=
  ⟨by decide, (add_compute_budget_instructions_spec [Instruction.other 0]
    ⟨5, 200000, 3, true⟩).2.2 (by decide)⟩

/-- Error reported by `new_signed_and_send`'s broadcast path: the last attempt
error held in `last_error`, or the `"All transaction attempts failed"` fallback
when no attempt ever ran (`last_error.unwrap_or_else`, tx.rs line 233).  The
attempt-error type `ε` stays abstract (`anyhow::Error` in the source). -/
inductive TxError (ε : Type) where
  | broadcast (e : ε)
  | allAttemptsFailed
deriving DecidableEq

/-- Embedding of the RPC retry loop of `new_signed_and_send`
(src/core/tx.rs lines 208-233).  `attempts i` is the outcome of
`send_transaction_with_confirmation` on attempt number `i` (a signature or an
error); `remaining` counts loop iterations still to run, `attempt` is the
current 1-based attempt number, and the accumulator mirrors `last_error`.
Returns the loop's result together with the number of send attempts performed
and the number of inter-attempt `sleep(RETRY_DELAY_MS)` delays executed
(a delay runs only after a failed attempt with `attempt < max_retries`). -/
def retry_loop {ε : Type} (attempts : Nat → Except ε String) :
    Nat → Nat → Option ε → Except (TxError ε) String × Nat × Nat
  | 0, _, last_error =>
    (Except.error (match last_error with
      | some e => TxError.broadcast e
      | none => TxError.allAttemptsFailed), 0, 0)
  | remaining + 1, attempt, _ =>
    match attempts attempt with
    | Except.ok signature => (Except.ok signature, 1, 0)
    | Except.error e =>
      let rest := retry_loop attempts remaining (attempt + 1) (some e)
      (rest.1, rest.2.1 + 1, if remaining = 0 then rest.2.2 else rest.2.2 + 1)

/-- The broadcast path of `new_signed_and_send`: the retry loop started at
attempt 1 with `last_error = None`, running `config.max_retries` iterations. -/
def run_broadcast {ε : Type} (attempts : Nat → Except ε String) (max_retries : Nat) :
    Except (TxError ε) String × Nat × Nat :=
  retry_loop attempts max_retries 1 none

/-- Observable outcome of one `new_signed_and_send` call: the returned
`Result<Vec<String>>`, how many times `jito_confirm` was invoked, how many
broadcast send attempts ran, and how many inter-attempt delays ran. -/
structure SendOutcome (ε : Type) where
  result : Except (TxError ε) (List String)
  bundle_attempts : Nat
  broadcast_sends : Nat
  delays : Nat

/-- Embedding of `new_signed_and_send` (src/core/tx.rs lines 151-234) after
instruction assembly and signing: `jito_client_present` models
`jito_client.is_some()`, `jito_result` the outcome of the single `jito_confirm`
call (all its internal failures — send error, confirmation failure, timeout —
surface here as `Except.error`), and `attempts` the per-attempt outcomes of the
broadcast path.  On Jito success the call returns `Ok(vec![bundle_id])`; on
Jito failure the error is only logged and control falls to the retry loop. -/
def new_signed_and_send {ε : Type} (config : TxConfig) (jito_client_present : Bool)
    (jito_result : Except ε String) (attempts : Nat → Except ε String) : SendOutcome ε :=
  if config.use_jito && jito_client_present then
    match jito_result with
    | Except.ok bundle_id => ⟨Except.ok [bundle_id], 1, 0, 0⟩
    | Except.error _ =>
      let b := run_broadcast attempts config.max_retries
      ⟨b.1.map (fun s => [s]), 1, b.2.1, b.2.2⟩
  else
    let b := run_broadcast attempts config.max_retries
    ⟨b.1.map (fun s => [s]), 0, b.2.1, b.2.2⟩

/-- When every attempt in the window fails, the loop performs every remaining
attempt, sleeps between consecutive attempts only, and reports the final
attempt's error. -/
theorem retry_loop_all_fail {ε : Type} (attempts : Nat → Except ε String) (errs : Nat → ε) :
    ∀ (remaining attempt : Nat) (last_error : Option ε), 1 ≤ remaining →
      (∀ i, attempt ≤ i → i < attempt + remaining → attempts i = Except.error (errs i)) →
      retry_loop attempts remaining attempt last_error =
        (Except.error (TxError.broadcast (errs (attempt + remaining - 1))),
          remaining, remaining - 1) := by
  intro remaining
  induction remaining with
  | zero => intro attempt last_error h; omega
  | succ r ih =>
    intro attempt last_error _ hfail
    have hcur : attempts attempt = Except.error (errs attempt) :=
      hfail attempt (Nat.le_refl _) (by omega)
    rw [retry_loop, hcur]
    cases Nat.eq_zero_or_pos r with
    | inl hr0 =>
      subst hr0
      simp [retry_loop]
    | inr hrpos =>
      have hrec := ih (attempt + 1) (some (errs attempt)) hrpos
        (fun i hi hi2 => hfail i (by omega) (by omega))
      simp only []
      rw [hrec, if_neg (show ¬ r = 0 by omega)]
      show (Except.error (TxError.broadcast (errs (attempt + 1 + r - 1))), r + 1, r - 1 + 1) =
        (Except.error (TxError.broadcast (errs (attempt + (r + 1) - 1))), r + 1, r + 1 - 1)
      rw [show attempt + 1 + r - 1 = attempt + (r + 1) - 1 by omega,
        show r - 1 + 1 = r + 1 - 1 by omega]

/-- When the first `fails` attempts fail and the next one succeeds (within the
window), the loop stops at the first success, having performed `fails + 1`
sends and `fails` delays, and returns that attempt's signature. -/
theorem retry_loop_first_success {ε : Type} (attempts : Nat → Except ε String) (sig : String) :
    ∀ (fails remaining attempt : Nat) (last_error : Option ε),
      fails < remaining →
      (∀ i, i < fails → (attempts (attempt + i)).isOk = false) →
      attempts (attempt + fails) = Except.ok sig →
      retry_loop attempts remaining attempt last_error = (Except.ok sig, fails + 1, fails) := by
  intro fails
  induction fails with
  | zero =>
    intro remaining attempt last_error hlt _ hok
    obtain ⟨r, rfl⟩ : ∃ r, remaining = r + 1 := ⟨remaining - 1, by omega⟩
    rw [retry_loop, show attempts attempt = Except.ok sig from hok]
  | succ k ih =>
    intro remaining attempt last_error hlt hfail hok
    obtain ⟨r, rfl⟩ : ∃ r, remaining = r + 1 := ⟨remaining - 1, by omega⟩
    cases hcur : attempts attempt with
    | ok s =>
      have h0 := hfail 0 (by omega)
      rw [Nat.add_zero, hcur] at h0
      simp [Except.isOk, Except.toBool] at h0
    | error e =>
      rw [retry_loop, hcur]
      have hrec := ih r (attempt + 1) (some e) (by omega)
        (fun i hi => by
          have hsh := hfail (i + 1) (by omega)
          rwa [show attempt + (i + 1) = attempt + 1 + i by omega] at hsh)
        (by rwa [show attempt + 1 + k = attempt + (k + 1) by omega])
      simp only []
      rw [hrec, if_neg (show ¬ r = 0 by omega)]

/-- Claim C4: with `max_retries ≥ 1` and every attempt failing, the broadcast
loop performs exactly `max_retries` send attempts with exactly
`max_retries - 1` inter-attempt delays and returns the final attempt's error;
when attempt `k ≤ max_retries` is the first success, it stops there with `k`
sends and `k - 1` delays and returns that attempt's signature. -/
theorem broadcast_retry_spec {ε : Type} (max_retries : Nat)
    (attempts : Nat → Except ε String) (errs : Nat → ε) (k : Nat) (sig : String) :
    (1 ≤ max_retries →
      (∀ i, 1 ≤ i → i ≤ max_retries → attempts i = Except.error (errs i)) →
      run_broadcast attempts max_retries =
        (Except.error (TxError.broadcast (errs max_retries)),
          max_retries, max_retries - 1)) ∧
    (1 ≤ k → k ≤ max_retries →
      (∀ i, 1 ≤ i → i < k → (attempts i).isOk = false) →
      attempts k = Except.ok sig →
      run_broadcast attempts max_retries = (Except.ok sig, k, k - 1)) := by
  constructor
  · intro hmr hfail
    have hall := retry_loop_all_fail attempts errs max_retries 1 none hmr
      (fun i hi hi2 => hfail i hi (by omega))
    rw [run_broadcast, hall, show 1 + max_retries - 1 = max_retries by omega]
  · intro hk1 hkm hfail hok
    have hsucc := retry_loop_first_success attempts sig (k - 1) max_retries 1 none (by omega)
      (fun i hi => hfail (1 + i) (by omega) (by omega))
      (by rwa [show 1 + (k - 1) = k by omega])
    rw [run_broadcast, hsucc, show k - 1 + 1 = k by omega]

/-- Witness for C4: three attempts, all failing, with `max_retries = 3`:
3 sends, 2 delays, and the third attempt's error is reported. -/
theorem broadcast_retry_spec_witness :
    run_broadcast (fun i => (Except.error i : Except Nat String)) 3 =
      (Except.error (TxError.broadcast 3), 3, 2) :=
  (broadcast_retry_spec 3 (fun i => Except.error i) (fun i => i) 1 "").1
    (by decide) (fun i _ _ => rfl)

/-- Claim C3: when `use_jito` is true, a Jito client is supplied and the bundle
submission fails, `jito_confirm` is invoked exactly once, the call's result is
exactly the broadcast path's result (so the bundle failure never by itself
fails the call), a first-attempt broadcast success yields that signature, and
when broadcast also exhausts its retries the returned error is the broadcast
path's last error — the bundle error never surfaces. -/
theorem jito_fallback_spec {ε : Type} (config : TxConfig) (jito_err : ε)
    (attempts : Nat → Except ε String) (errs : Nat → ε) (sig : String)
    (hj : config.use_jito = true) :
    (new_signed_and_send config true (Except.error jito_err) attempts).bundle_attempts = 1 ∧
    (new_signed_and_send config true (Except.error jito_err) attempts).result =
      (run_broadcast attempts config.max_retries).1.map (fun s => [s]) ∧
    (1 ≤ config.max_retries → attempts 1 = Except.ok sig →
      (new_signed_and_send config true (Except.error jito_err) attempts).result =
        Except.ok [sig]) ∧
    (1 ≤ config.max_retries →
      (∀ i, 1 ≤ i → i ≤ config.max_retries → attempts i = Except.error (errs i)) →
      (new_signed_and_send config true (Except.error jito_err) attempts).result =
        Except.error (TxError.broadcast (errs config.max_retries))) := by
  have hshape : new_signed_and_send config true (Except.error jito_err) attempts =
      ⟨(run_broadcast attempts config.max_retries).1.map (fun s => [s]), 1,
        (run_broadcast attempts config.max_retries).2.1,
        (run_broadcast attempts config.max_retries).2.2⟩ := by
    rw [new_signed_and_send, hj]
    rfl
  refine ⟨by rw [hshape], by rw [hshape], ?_, ?_⟩
  · intro hmr hok
    rw [hshape]
    have hsucc := retry_loop_first_success attempts sig 0 config.max_retries 1 none
      (by omega) (fun i hi => absurd hi (by omega)) (by simpa using hok)
    simp [run_broadcast, hsucc, Except.map]
  · intro hmr hfail
    rw [hshape]
    have hall := retry_loop_all_fail attempts errs config.max_retries 1 none hmr
      (fun i hi hi2 => hfail i hi (by omega))
    simp [run_broadcast, hall, Except.map]

/-- Witness for C3: concrete failing bundle with a succeeding first broadcast
attempt: the call succeeds with that attempt's signature and one bundle try. -/
theorem jito_fallback_spec_witness :
    (new_signed_and_send ⟨1000, 300000, 3, true⟩ true (Except.error (0 : Nat))
      (fun _ => Except.ok "sigX")).bundle_attempts = 1 ∧
    (new_signed_and_send ⟨1000, 300000, 3, true⟩ true (Except.error (0 : Nat))
      (fun _ => Except.ok "sigX")).result = Except.ok ["sigX"] :=
  ⟨(jito_fallback_spec ⟨1000, 300000, 3, true⟩ 0 (fun _ => Except.ok "sigX")
      (fun _ => 0) "sigX" rfl).1,
    (jito_fallback_spec ⟨1000, 300000, 3, true⟩ 0 (fun _ => Except.ok "sigX")
      (fun _ => 0) "sigX" rfl).2.2.1 (by decide) rfl⟩

/-- Embedding of the loop of `batch_send_transactions`
(src/core/tx.rs lines 263-298).  `items` is the per-batch outcome of
`new_signed_and_send` in submission order; `all_results` mirrors the `Vec`
accumulated so far.  Returns the function's `Result<Vec<String>>` (on a batch
failure the code executes `return Err(e)`, discarding `all_results`) together
with the number of batches actually attempted. -/
def batch_loop {ε : Type} (items : List (Except ε (List String)))
    (all_results : List String) : Except ε (List String) × Nat :=
  match items with
  | [] => (Except.ok all_results, 0)
  | item :: rest =>
    match item with
    | Except.ok results =>
      let next := batch_loop rest (all_results ++ results)
      (next.1, next.2 + 1)
    | Except.error e => (Except.error e, 1)

/-- `batch_send_transactions` starts with an empty `all_results` vector. -/
def batch_send_transactions {ε : Type} (items : List (Except ε (List String))) :
    Except ε (List String) × Nat :=
  batch_loop items []

/-- Claim C5 counterexample: for items `[A, B, C]` where A succeeds with
`["sigA"]` and B fails with `"errB"`, the returned value is the bare error
`Err("errB")` — it is not an `Ok` value, so it carries none of the results
already collected from A, contrary to the claim that the caller receives
"A's result plus B's error". -/
theorem batch_send_transactions_counterexample :
    (batch_send_transactions [Except.ok ["sigA"], Except.error "errB",
        Except.ok ["sigC"]]).1 = Except.error "errB" ∧
    ∀ l : List String,
      (batch_send_transactions [Except.ok ["sigA"], Except.error "errB",
        Except.ok ["sigC"]]).1 ≠ Except.ok l := by
  refine ⟨rfl, ?_⟩
  intro l h
  rw [show (batch_send_transactions [Except.ok ["sigA"], Except.error "errB",
      Except.ok ["sigC"]]).1 = Except.error "errB" from rfl] at h
  exact Except.noConfusion h

/-- Auxiliary: with every earlier item successful, `batch_loop` runs the items
in order, stops at the first failing item, and returns exactly that item's
error, for any accumulator. -/
theorem batch_loop_stops_at_first_failure {ε : Type} (e : ε)
    (post : List (Except ε (List String))) :
    ∀ (pre : List (Except ε (List String))) (acc : List String),
      (∀ x ∈ pre, ∃ l, x = Except.ok l) →
      batch_loop (pre ++ Except.error e :: post) acc = (Except.error e, pre.length + 1) := by
  intro pre
  induction pre with
  | nil => intro acc _; rfl
  | cons x rest ih =>
    intro acc hpre
    obtain ⟨l, rfl⟩ := hpre x (List.mem_cons_self x rest)
    rw [List.cons_append, batch_loop]
    rw [ih (acc ++ l) (fun y hy => hpre y (List.mem_cons_of_mem _ hy))]
    rfl

/-- Claim C5 (amended): `batch_send_transactions` processes items strictly in
order and stops at the first item whose submission fails: exactly the items up
to and including the failing one are attempted (later items never run), and the
value returned to the caller is the failing item's error alone — the results
already collected from earlier successful items are discarded, not returned. -/
theorem batch_send_transactions_spec {ε : Type} (pre post : List (Except ε (List String)))
    (e : ε) (hpre : ∀ x ∈ pre, ∃ l, x = Except.ok l) :
    batch_send_transactions (pre ++ Except.error e :: post) =
      (Except.error e, pre.length + 1) :=
  batch_loop_stops_at_first_failure e post pre [] hpre

/-- Witness for C5 (amended): items `[A, B, C]`, B failing: result is B's error
and exactly 2 items were attempted, so C never ran. -/
theorem batch_send_transactions_spec_witness :
    batch_send_transactions [Except.ok ["sigA"], Except.error "errB", Except.ok ["sigC"]] =
      (Except.error "errB", 2) :=
  batch_send_transactions_spec [Except.ok ["sigA"]] [Except.ok ["sigC"]] "errB"
    (fun x hx => ⟨["sigA"], by simpa using hx⟩)

/-- A signing keypair, identified by its public key (`Keypair::pubkey`). -/
structure Keypair where
  pubkey : Nat
deriving DecidableEq

/-- A signed Solana transaction as this code builds one:
`Transaction::new_signed_with_payer(instructions, Some(payer), signers, blockhash)`.
`VersionedTransaction::from` is the identity on this model since every
versioned transaction in the source is converted from a legacy one. -/
structure Transaction where
  instructions : List Instruction
  payer : Option Nat
  signer_pubkeys : List Nat
  recent_blockhash : Nat
deriving DecidableEq

/-- `Transaction::new_signed_with_payer` records the instruction list, the
payer, the signers' public keys, and the blockhash. -/
def Transaction.new_signed_with_payer (ixs : List Instruction) (payer : Option Nat)
    (signers : List Keypair) (blockhash : Nat) : Transaction :=
  ⟨ixs, payer, signers.map Keypair.pubkey, blockhash⟩

/-- The swap transaction signed inside `new_signed_and_send`
(src/core/tx.rs lines 177-184): payer and sole signer are `keypair`. -/
def swap_signed_tx (keypair : Keypair) (instructions : List Instruction)
    (recent_blockhash : Nat) : Transaction :=
  Transaction.new_signed_with_payer instructions (some keypair.pubkey) [keypair]
    recent_blockhash

/-- The bundle built and submitted by `jito_confirm`
(src/core/tx.rs lines 109-131): the swap transaction is pushed first, then a
tip transaction — a `system_instruction::transfer` of `tip_value` lamports from
`keypair.pubkey()` to `tip_account`, signed by the same keypair with itself as
payer, over the same blockhash — is pushed last, and exactly this two-element
vector goes to `jito_client.send_bundle`. -/
def jito_bundle (keypair : Keypair) (versioned_tx : Transaction)
    (recent_block_hash : Nat) (tip_account tip_value : Nat) : List Transaction :=
  let tip_instruction := Instruction.systemTransfer keypair.pubkey tip_account tip_value
  let tip_tx := Transaction.new_signed_with_payer [tip_instruction]
    (some keypair.pubkey) [keypair] recent_block_hash
  [versioned_tx, tip_tx]

/-- Claim C8: the bundle submitted by `jito_confirm` for the swap transaction
signed in `new_signed_and_send` has exactly two transactions: the swap
transaction first and the tip transaction last; the tip transaction transfers
`tip_value` from the pubkey of the keypair — the same keypair that is payer and
sole signer of the swap transaction — to the resolved tip account. -/
theorem jito_bundle_spec (keypair : Keypair) (instructions : List Instruction)
    (recent_blockhash tip_account tip_value : Nat) :
    (jito_bundle keypair (swap_signed_tx keypair instructions recent_blockhash)
        recent_blockhash tip_account tip_value).length = 2 ∧
    (jito_bundle keypair (swap_signed_tx keypair instructions recent_blockhash)
        recent_blockhash tip_account tip_value).head? =
      some (swap_signed_tx keypair instructions recent_blockhash) ∧
    (jito_bundle keypair (swap_signed_tx keypair instructions recent_blockhash)
        recent_blockhash tip_account tip_value).getLast? =
      some (Transaction.mk
        [Instruction.systemTransfer keypair.pubkey tip_account tip_value]
        (some keypair.pubkey) [keypair.pubkey] recent_blockhash) ∧
    (swap_signed_tx keypair instructions recent_blockhash).payer = some keypair.pubkey ∧
    (swap_signed_tx keypair instructions recent_blockhash).signer_pubkeys =
      [keypair.pubkey] := by
  exact ⟨rfl, rfl, rfl, rfl, rfl⟩

/-- Network interactions `Pump::swap` can perform after validation passes:
the bonding-curve account fetch in `build_swap_instructions`, and the
blockhash fetch, bundle send and broadcast sends inside `new_signed_and_send`. -/
inductive NetEffect where
  | accountFetch
  | blockhashFetch
  | bundleSend
  | broadcastSend
deriving DecidableEq

/-- Embedding of `Pump::validate_swap_params` (src/dex/pump.rs lines 114-135):
`Pubkey::from_str(mint)` is modelled by the abstract parser `parse_mint`
(an external collaborator); then zero amounts and `slippage_bps > 5000` are
rejected, in that order.  The numeric interpolation of the third message is
elided. -/
def validate_swap_params (parse_mint : String → Option Nat) (mint : String)
    (amount_in slippage_bps : Nat) : Except String Unit :=
  match parse_mint mint with
  | none => Except.error "Invalid mint address format"
  | some _ =>
    if amount_in = 0 then
      Except.error "Swap amount cannot be zero"
    else if slippage_bps > 5000 then
      Except.error "Slippage tolerance too high"
    else
      Except.ok ()

/-- Embedding of `Pump::swap` (src/dex/pump.rs lines 78-111): it first runs
`validate_swap_params` and propagates its error with `?` before anything else;
then `get_rpc_client` (no network interaction) and only afterwards
`build_swap_instructions` and `tx::new_signed_and_send`, whose combined
outcome and network effects are the abstract continuation `rest`. -/
def Pump.swap (parse_mint : String → Option Nat) (has_rpc_client : Bool)
    (mint : String) (amount_in slippage_bps : Nat)
    (rest : Except String (List String) × List NetEffect) :
    Except String (List String) × List NetEffect :=
  match validate_swap_params parse_mint mint amount_in slippage_bps with
  | Except.error e => (Except.error e, [])
  | Except.ok _ =>
    if has_rpc_client then rest
    else (Except.error "Blocking RPC client not available", [])

/-- Claim C7: whenever the mint does not parse, or `amount_in = 0`, or
`slippage_bps > 5000`, `Pump::swap` returns exactly the validation error and
performs no network interaction at all — the effect trace is empty, whatever
the downstream continuation would have done or returned. -/
theorem swap_validation_fails_fast (parse_mint : String → Option Nat)
    (has_rpc_client : Bool) (mint : String) (amount_in slippage_bps : Nat)
    (rest : Except String (List String) × List NetEffect)
    (hbad : parse_mint mint = none ∨ amount_in = 0 ∨ slippage_bps > 5000) :
    ∃ e, validate_swap_params parse_mint mint amount_in slippage_bps = Except.error e ∧
      Pump.swap parse_mint has_rpc_client mint amount_in slippage_bps rest =
        (Except.error e, []) := by
  have hval : ∃ e, validate_swap_params parse_mint mint amount_in slippage_bps =
      Except.error e := by
    unfold validate_swap_params
    cases hp : parse_mint mint with
    | none => exact ⟨_, rfl⟩
    | some k =>
      rcases hbad with h | h | h
      · exact absurd hp (by rw [h]; exact Option.noConfusion)
      · rw [if_pos h]
        exact ⟨_, rfl⟩
      · by_cases hz : amount_in = 0
        · rw [if_pos hz]
          exact ⟨_, rfl⟩
        · rw [if_neg hz, if_pos h]
          exact ⟨_, rfl⟩
  obtain ⟨e, he⟩ := hval
  refine ⟨e, he, ?_⟩
  unfold Pump.swap
  rw [he]

/-- Witness for C7: a mint that does not parse makes `Pump::swap` fail with
the validation error and an empty network-effect trace, even though the
continuation would have succeeded with a network effect. -/
theorem swap_validation_fails_fast_witness :
    ∃ e, validate_swap_params (fun _ => none) "badmint" 5 100 = Except.error e ∧
      Pump.swap (fun _ => none) true "badmint" 5 100
        (Except.ok ["sig"], [NetEffect.accountFetch]) = (Except.error e, []) :=
  swap_validation_fails_fast (fun _ => none) true "badmint" 5 100
    (Except.ok ["sig"], [NetEffect.accountFetch]) (Or.inl rfl)

/-- Borsh deserialization of a `u64`: consumes exactly 8 bytes, little-endian
(byte `i` weighted by `256 ^ i`), failing on a shorter buffer. -/
def readU64LE (data : List Nat) : Option (Nat × List Nat) :=
  if 8 ≤ data.length then
    some ((data.take 8).foldr (fun b acc => acc * 256 + b) 0, data.drop 8)
  else
    none

/-- Borsh deserialization of a `bool`: consumes exactly one byte, which must
be 0 or 1. -/
def readBoolByte (data : List Nat) : Option (Bool × List Nat) :=
  match data with
  | 0 :: rest => some (false, rest)
  | 1 :: rest => some (true, rest)
  | _ => none

/-- The `BondingCurveAccount` record (src/dex/pump.rs lines 329-338):
`discriminator` and the five reserve/supply fields are `u64`, `complete` is a
`bool`. -/
structure BondingCurveAccount where
  discriminator : Nat
  virtual_token_reserves : Nat
  virtual_sol_reserves : Nat
  real_token_reserves : Nat
  real_sol_reserves : Nat
  token_total_supply : Nat
  complete : Bool
deriving DecidableEq

/-- Borsh `from_slice::<BondingCurveAccount>` as derived by
`#[derive(BorshDeserialize)]` (src/dex/pump.rs line 329): the seven fields are
read in declaration order from the unpadded little-endian buffer, and
`from_slice` additionally requires the whole buffer to be consumed. -/
def BondingCurveAccount.from_slice (data : List Nat) : Option BondingCurveAccount :=
  match readU64LE data with
  | none => none
  | some (discriminator, r1) =>
    match readU64LE r1 with
    | none => none
    | some (virtual_token_reserves, r2) =>
      match readU64LE r2 with
      | none => none
      | some (virtual_sol_reserves, r3) =>
        match readU64LE r3 with
        | none => none
        | some (real_token_reserves, r4) =>
          match readU64LE r4 with
          | none => none
          | some (real_sol_reserves, r5) =>
            match readU64LE r5 with
            | none => none
            | some (token_total_supply, r6) =>
              match readBoolByte r6 with
              | none => none
              | some (complete, r7) =>
                if r7 = [] then
                  some ⟨discriminator, virtual_token_reserves, virtual_sol_reserves,
                    real_token_reserves, real_sol_reserves, token_total_supply, complete⟩
                else
                  none

/-- Reading a `u64` consumes exactly 8 bytes. -/
theorem readU64LE_length {data : List Nat} {v : Nat} {rest : List Nat}
    (h : readU64LE data = some (v, rest)) : data.length = rest.length + 8 := by
  unfold readU64LE at h
  split_ifs at h with hlen
  simp only [Option.some.injEq, Prod.mk.injEq] at h
  rw [← h.2, List.length_drop]
  omega

/-- Reading a `bool` consumes exactly 1 byte. -/
theorem readBoolByte_length {data : List Nat} {b : Bool} {rest : List Nat}
    (h : readBoolByte data = some (b, rest)) : data.length = rest.length + 1 := by
  unfold readBoolByte at h
  split at h <;> simp_all

/-- A successful decode consumes a buffer of exactly 49 bytes. -/
theorem from_slice_length {data : List Nat} {acc : BondingCurveAccount}
    (h : BondingCurveAccount.from_slice data = some acc) : data.length = 49 := by
  unfold BondingCurveAccount.from_slice at h
  cases h1 : readU64LE data with
  | none => rw [h1] at h; exact Option.noConfusion h
  | some p1 =>
  obtain ⟨d1, r1⟩ := p1
  rw [h1] at h
  simp only [] at h
  cases h2 : readU64LE r1 with
  | none => rw [h2] at h; exact Option.noConfusion h
  | some p2 =>
  obtain ⟨d2, r2⟩ := p2
  rw [h2] at h
  simp only [] at h
  cases h3 : readU64LE r2 with
  | none => rw [h3] at h; exact Option.noConfusion h
  | some p3 =>
  obtain ⟨d3, r3⟩ := p3
  rw [h3] at h
  simp only [] at h
  cases h4 : readU64LE r3 with
  | none => rw [h4] at h; exact Option.noConfusion h
  | some p4 =>
  obtain ⟨d4, r4⟩ := p4
  rw [h4] at h
  simp only [] at h
  cases h5 : readU64LE r4 with
  | none => rw [h5] at h; exact Option.noConfusion h
  | some p5 =>
  obtain ⟨d5, r5⟩ := p5
  rw [h5] at h
  simp only [] at h
  cases h6 : readU64LE r5 with
  | none => rw [h6] at h; exact Option.noConfusion h
  | some p6 =>
  obtain ⟨d6, r6⟩ := p6
  rw [h6] at h
  simp only [] at h
  cases h7 : readBoolByte r6 with
  | none => rw [h7] at h; exact Option.noConfusion h
  | some p7 =>
  obtain ⟨d7, r7⟩ := p7
  rw [h7] at h
  simp only [] at h
  have hempty : r7 = [] := by
    by_contra hne
    rw [if_neg hne] at h
    exact Option.noConfusion h
  have l1 := readU64LE_length h1
  have l2 := readU64LE_length h2
  have l3 := readU64LE_length h3
  have l4 := readU64LE_length h4
  have l5 := readU64LE_length h5
  have l6 := readU64LE_length h6
  have l7 := readBoolByte_length h7
  rw [hempty] at l7
  simp only [List.length_nil] at l7
  omega

/-- Claim C9: every buffer shorter than the fixed 49-byte record
(8-byte discriminator, five little-endian `u64` fields, one boolean byte)
fails to decode as a `BondingCurveAccount`; decoding succeeds only when the
buffer length is exactly the 49-byte fixed record length. -/
theorem bonding_curve_decode_spec (data : List Nat) :
    (data.length < 49 → BondingCurveAccount.from_slice data = none) ∧
    (∀ acc, BondingCurveAccount.from_slice data = some acc → data.length = 49) := by
  constructor
  · intro hshort
    cases hdec : BondingCurveAccount.from_slice data with
    | none => rfl
    | some acc => exact absurd (from_slice_length hdec) (by omega)
  · intro acc h
    exact from_slice_length h

/-- Witness for C9: the empty buffer (length 0 < 49) fails to decode. -/
theorem bonding_curve_decode_spec_witness :
    BondingCurveAccount.from_slice [] = none :=
  (bonding_curve_decode_spec []).1 (by decide)

/-- Direction tag of a swap (`SwapDirection` in `engine::swap`). -/
inductive SwapDirection where
  | Buy
  | Sell
deriving DecidableEq

/-- Rust `str::to_lowercase`, modelled character-wise over the string's
characters.  For the ASCII keywords compared against here this agrees with
Rust's Unicode lowercasing. -/
def to_lowercase (s : List Char) : List Char :=
  s.map Char.toLower

/-- Embedding of `parse_swap_direction` (src/dex/pump.rs lines 515-521):
matches `direction.to_lowercase().as_str()` against `"buy" | "b"` and
`"sell" | "s"`, anything else is an error (whose formatted message is
modelled without the original quoting). -/
def parse_swap_direction (direction : List Char) : Except (List Char) SwapDirection :=
  if to_lowercase direction = "buy".toList ∨ to_lowercase direction = "b".toList then
    Except.ok SwapDirection.Buy
  else if to_lowercase direction = "sell".toList ∨ to_lowercase direction = "s".toList then
    Except.ok SwapDirection.Sell
  else
    Except.error ("Invalid swap direction: ".toList ++ direction ++
      ". Use buy or sell".toList)

/-- Claim C10: `parse_swap_direction` is total and case-insensitive: it
returns `Buy` exactly when the lowercased input is `"buy"` or `"b"`, `Sell`
exactly when the lowercased input is `"sell"` or `"s"`, and an error for every
other string; in particular the single-letter and mixed-case forms `"B"` and
`"SeLL"` are accepted. -/
theorem parse_swap_direction_spec (s : List Char) :
    (parse_swap_direction s = Except.ok SwapDirection.Buy ↔
      (to_lowercase s = "buy".toList ∨ to_lowercase s = "b".toList)) ∧
    (parse_swap_direction s = Except.ok SwapDirection.Sell ↔
      (to_lowercase s = "sell".toList ∨ to_lowercase s = "s".toList)) ∧
    (¬ (to_lowercase s = "buy".toList ∨ to_lowercase s = "b".toList) →
      ¬ (to_lowercase s = "sell".toList ∨ to_lowercase s = "s".toList) →
      ∃ e, parse_swap_direction s = Except.error e) ∧
    parse_swap_direction "B".toList = Except.ok SwapDirection.Buy ∧
    parse_swap_direction "SeLL".toList = Except.ok SwapDirection.Sell := by
  refine ⟨?_, ?_, ?_, ?_, ?_⟩
  · unfold parse_swap_direction
    split_ifs with h1 h2 <;> simp_all
  · unfold parse_swap_direction
    split_ifs with h1 h2
    · constructor
      · intro he
        exact absurd he (by simp)
      · intro hsell
        exfalso
        rcases h1 with h1 | h1 <;> rcases hsell with hs | hs <;> rw [h1] at hs <;>
          exact absurd hs (by decide)
    · simp_all
    · simp_all
  · intro hb hs
    unfold parse_swap_direction
    rw [if_neg hb, if_neg hs]
    exact ⟨_, rfl⟩
  · unfold parse_swap_direction
    rw [if_pos (by right; decide)]
  · unfold parse_swap_direction
    rw [if_neg (by decide), if_pos (by left; decide)]

/-- Witness for C10: a string that is neither a buy nor a sell keyword is
rejected. -/
theorem parse_swap_direction_spec_witness :
    ∃ e, parse_swap_direction "hold".toList = Except.error e :=
  (parse_swap_direction_spec "hold".toList).2.2.1 (by decide) (by decide)

end PumpBot
